import Mathlib

/-!
Shallow embedding of the SmartBet Pro Analytics Elo engine
(`elo_engine.py`) and verification of its specification claims.

Numbers held in the rating store (ratings, form histories) are embedded
as rationals; the probability computations, which use the real power
`10 ** (x / 400)`, are embedded over the reals with `Real.rpow`.
-/

namespace SmartBet

/-- The constant triple bound by `EloEngine.__init__` for a recognized
sport: `base_k`, `home_advantage`, `default_rating`. -/
structure SportConsts where
  base_k : ℚ
  home_advantage : ℚ
  default_rating : ℚ
deriving DecidableEq, Repr

/-- The sport-dispatch in `EloEngine.__init__` (lines 14-21): `"soccer"`
binds (32, 100, 1500), `"basketball"` binds (20, 70, 1500), and any other
sport falls through without binding the constants, which we embed as
`none`. -/
def sportConsts (sport : String) : Option SportConsts :=
  if sport = "soccer" then some ⟨32, 100, 1500⟩
  else if sport = "basketball" then some ⟨20, 70, 1500⟩
  else none

/-- One entry of the persisted rating table: the JSON object per team may
contain a `rating` field and a `form` field, either of which can be
absent (Python reads them with `.get(key, default)`). -/
structure TeamRecord where
  rating : Option ℚ
  form : Option (List ℚ)
deriving DecidableEq, Repr

/-- The rating table `self.ratings`: a finite string-keyed map, embedded
as an association list. -/
abbrev Ratings := List (String × TeamRecord)

/-- `self.ratings.get(team, {})` — dictionary lookup with a missing key
giving the empty record. -/
def lookupTeam (rs : Ratings) (team : String) : Option TeamRecord :=
  List.lookup team rs

/-- `_load_ratings` (lines 23-28): the `open`+`json.load` attempt is an
external effect, embedded as an `Except` input; the `except` clause turns
every failure into the empty table. -/
def load_ratings (attempt : Except String Ratings) : Ratings :=
  match attempt with
  | .ok rs => rs
  | .error _ => []

/-- An engine instance as `__init__` leaves it: the sport string, the
loaded table, and the possibly-unbound sport constants. -/
structure EloEngine where
  sport : String
  ratings : Ratings
  consts : Option SportConsts
deriving DecidableEq, Repr

/-- `EloEngine.__init__(sport)` with an already-loaded table: stores the
sport and ratings and runs the sport dispatch; for an unrecognized sport
the constants stay unbound (`none`) and no error is raised. -/
def EloEngine.init (sport : String) (ratings : Ratings) : EloEngine :=
  { sport := sport, ratings := ratings, consts := sportConsts sport }

/-- A fully configured engine (the constants are bound), which is the
only state in which the numeric methods can run in Python without an
`AttributeError`. -/
structure Engine where
  sport : String
  ratings : Ratings
  base_k : ℚ
  home_advantage : ℚ
  default_rating : ℚ

/-- A soccer engine over a given table, as built by `EloEngine("soccer")`. -/
def Engine.soccer (rs : Ratings) : Engine :=
  { sport := "soccer", ratings := rs, base_k := 32, home_advantage := 100,
    default_rating := 1500 }

/-- A basketball engine over a given table, as built by
`EloEngine("basketball")`. -/
def Engine.basketball (rs : Ratings) : Engine :=
  { sport := "basketball", ratings := rs, base_k := 20, home_advantage := 70,
    default_rating := 1500 }

/-- `self.ratings.get(team, {})` falls back to the empty JSON object,
i.e. a record with neither field. -/
def emptyRecord : TeamRecord := ⟨none, none⟩

/-- `get_rating` (lines 34-35):
`self.ratings.get(team, {}).get('rating', self.default_rating)`. -/
def Engine.get_rating (e : Engine) (team : String) : ℚ :=
  ((lookupTeam e.ratings team).getD emptyRecord).rating.getD e.default_rating

/-- The neutral default form history `[1.5, 1.5, 1.5, 1.5, 1.5]`. -/
def defaultForm : List ℚ := [3/2, 3/2, 3/2, 3/2, 3/2]

/-- The fixed recency weights `[1.5, 1.3, 1.1, 0.9, 0.7]`. -/
def formWeights : List ℚ := [3/2, 13/10, 11/10, 9/10, 7/10]

/-- The `form` local of `get_form` (line 38):
`self.ratings.get(team, {}).get('form', [1.5]*5)`. -/
def Engine.form_history (e : Engine) (team : String) : List ℚ :=
  ((lookupTeam e.ratings team).getD emptyRecord).form.getD defaultForm

/-- The weighting computation of `get_form` (lines 39-41), the spec's
`weightedForm`: `sum(f * w for f, w in zip(form, weights)) / sum(weights)`.
Note the numerator zips (truncating to the shorter list) while the
denominator is the sum of ALL five weights. -/
def weightedForm (form : List ℚ) : ℚ :=
  (List.zipWith (· * ·) form formWeights).sum / formWeights.sum

/-- `get_form` (lines 37-41): the weighting applied to the stored (or
default) form history. -/
def Engine.get_form (e : Engine) (team : String) : ℚ :=
  weightedForm (e.form_history team)

/-- Python truthiness of an optional string argument (`None` and the
empty string are falsy). -/
def truthy : Option String → Bool
  | none => false
  | some s => !(s == "")

/-- `expected_score` (lines 43-50). The two `if`/`elif` tests are
`home_team and team_a and team_a == home_team` and
`home_team and team_a`; the in-place `rating_a += self.home_advantage`
(resp. `rating_b += ...`) is inlined into the logistic formula of each
branch. -/
noncomputable def Engine.expected_score (e : Engine) (rating_a rating_b : ℝ)
    (home_team team_a : Option String) : ℝ :=
  if truthy home_team && truthy team_a && (team_a == home_team) then
    1 / (1 + (10 : ℝ) ^ ((rating_b - (rating_a + (e.home_advantage : ℝ))) / 400))
  else if truthy home_team && truthy team_a then
    1 / (1 + (10 : ℝ) ^ (((rating_b + (e.home_advantage : ℝ)) - rating_a) / 400))
  else
    1 / (1 + (10 : ℝ) ^ ((rating_b - rating_a) / 400))

/-- The dictionary returned by `predict_match`. -/
structure Prediction where
  home_win_prob : ℝ
  away_win_prob : ℝ
  draw_prob : ℝ
  home_rating : ℚ
  away_rating : ℚ
  home_form : ℚ
  away_form : ℚ

/-- `predict_match` (lines 52-79): form-adjusted ratings, the two
`expected_score` calls (note the second passes `away_team` as the
`home_team` argument and `home_team` as `team_a`), the soccer-only draw
probability and renormalization. -/
noncomputable def Engine.predict_match (e : Engine)
    (home_team away_team : String) : Prediction :=
  let rating_home := e.get_rating home_team
  let rating_away := e.get_rating away_team
  let form_home := e.get_form home_team
  let form_away := e.get_form away_team
  let adjusted_home : ℝ := (rating_home : ℝ) + ((form_home : ℝ) - 1.5) * 20
  let adjusted_away : ℝ := (rating_away : ℝ) + ((form_away : ℝ) - 1.5) * 20
  let prob_home_win :=
    e.expected_score adjusted_home adjusted_away (some home_team) (some home_team)
  let prob_away_win :=
    e.expected_score adjusted_away adjusted_home (some away_team) (some home_team)
  let prob_draw :=
    if e.sport = "soccer" then 1 - (prob_home_win + prob_away_win) else 0
  if e.sport = "soccer" then
    let total := prob_home_win + prob_away_win + prob_draw
    { home_win_prob := prob_home_win / total
      away_win_prob := prob_away_win / total
      draw_prob := prob_draw / total
      home_rating := rating_home
      away_rating := rating_away
      home_form := form_home
      away_form := form_away }
  else
    { home_win_prob := prob_home_win
      away_win_prob := prob_away_win
      draw_prob := prob_draw
      home_rating := rating_home
      away_rating := rating_away
      home_form := form_home
      away_form := form_away }

/-! ### Basic facts about the logistic expected-score curve -/

lemma ten_rpow_pos (x : ℝ) : 0 < (10 : ℝ) ^ x :=
  Real.rpow_pos_of_pos (by norm_num) x

lemma logistic_pos (x : ℝ) : 0 < 1 / (1 + (10 : ℝ) ^ x) := by
  have := ten_rpow_pos x
  positivity

lemma logistic_lt_one (x : ℝ) : 1 / (1 + (10 : ℝ) ^ x) < 1 := by
  have h := ten_rpow_pos x
  rw [div_lt_one (by linarith)]
  linarith

/-- The two logistic evaluations at opposite exponents are exactly
complementary. -/
lemma logistic_complement (x : ℝ) :
    1 / (1 + (10 : ℝ) ^ x) + 1 / (1 + (10 : ℝ) ^ (-x)) = 1 := by
  have h0 : 0 < (10 : ℝ) ^ x := ten_rpow_pos x
  rw [Real.rpow_neg (by norm_num)]
  have h1 : 1 + (10 : ℝ) ^ x ≠ 0 := by positivity
  have h2 : 1 + ((10 : ℝ) ^ x)⁻¹ ≠ 0 := by positivity
  field_simp
  ring

/-- The logistic curve is strictly decreasing in its exponent. -/
lemma logistic_anti {x y : ℝ} (h : x < y) :
    1 / (1 + (10 : ℝ) ^ y) < 1 / (1 + (10 : ℝ) ^ x) := by
  have hx := ten_rpow_pos x
  have hlt : (10 : ℝ) ^ x < (10 : ℝ) ^ y :=
    (Real.rpow_lt_rpow_left_iff (by norm_num)).mpr h
  exact one_div_lt_one_div_of_lt (by linarith) (by linarith)

/-- Below exponent `0` the logistic value exceeds `1 / 2`. -/
lemma logistic_gt_half {x : ℝ} (h : x < 0) :
    1 / 2 < 1 / (1 + (10 : ℝ) ^ x) := by
  have hx := ten_rpow_pos x
  have h1 : (10 : ℝ) ^ x < 1 := by
    calc (10 : ℝ) ^ x < (10 : ℝ) ^ (0 : ℝ) :=
          (Real.rpow_lt_rpow_left_iff (by norm_num)).mpr h
      _ = 1 := Real.rpow_zero 10
  have := one_div_lt_one_div_of_lt (show (0:ℝ) < 1 + (10:ℝ) ^ x by linarith)
    (show 1 + (10:ℝ) ^ x < 2 by linarith)
  linarith

/-! ### Branch reductions for `expected_score` and `predict_match` -/

/-- The home-side call of `predict_match`: `home_team` and `team_a` are
the same non-empty name, so the first branch fires and the home
advantage lands on `rating_a`. -/
lemma expected_score_self (e : Engine) (a b : ℝ) {t : String} (ht : t ≠ "") :
    e.expected_score a b (some t) (some t)
      = 1 / (1 + (10 : ℝ) ^ ((b - (a + (e.home_advantage : ℝ))) / 400)) := by
  rw [Engine.expected_score, if_pos]
  simp [truthy, ht]

/-- The away-side call of `predict_match`: `home_team` holds the away
name and `team_a` the home name; with both non-empty and distinct the
`elif` branch fires and the home advantage lands on `rating_b`. -/
lemma expected_score_other (e : Engine) (a b : ℝ) {t u : String}
    (ht : t ≠ "") (hu : u ≠ "") (hne : u ≠ t) :
    e.expected_score a b (some t) (some u)
      = 1 / (1 + (10 : ℝ) ^ (((b + (e.home_advantage : ℝ)) - a) / 400)) := by
  rw [Engine.expected_score, if_neg, if_pos]
  · simp [truthy, ht, hu]
  · simp [truthy, ht, hu, hne]

/-- The neutral call: no home team designated, raw ratings compared. -/
lemma expected_score_neutral (e : Engine) (a b : ℝ) :
    e.expected_score a b none none
      = 1 / (1 + (10 : ℝ) ^ ((b - a) / 400)) := by
  rw [Engine.expected_score, if_neg, if_neg] <;> simp [truthy]

/-- The form-adjusted rating of `predict_match` (lines 58-59):
`rating + (form - 1.5) * 20`. -/
noncomputable def Engine.adjusted (e : Engine) (team : String) : ℝ :=
  (e.get_rating team : ℝ) + ((e.get_form team : ℝ) - 1.5) * 20

/-- The `prob_home_win` local of `predict_match` (line 61). -/
noncomputable def Engine.probHome (e : Engine) (home away : String) : ℝ :=
  e.expected_score (e.adjusted home) (e.adjusted away) (some home) (some home)

/-- The `prob_away_win` local of `predict_match` (line 62). -/
noncomputable def Engine.probAway (e : Engine) (home away : String) : ℝ :=
  e.expected_score (e.adjusted away) (e.adjusted home) (some away) (some home)

lemma renorm_total (p q : ℝ) : p + q + (1 - (p + q)) = 1 := by ring

lemma soccer_is_soccer (rs : Ratings) : (Engine.soccer rs).sport = "soccer" :=
  rfl

lemma basketball_not_soccer (rs : Ratings) :
    ¬ (Engine.basketball rs).sport = "soccer" := by
  show ¬ ("basketball" = "soccer")
  decide

lemma soccer_home_win_prob (rs : Ratings) (home away : String) :
    ((Engine.soccer rs).predict_match home away).home_win_prob
      = (Engine.soccer rs).probHome home away := by
  simp only [Engine.predict_match, if_pos (soccer_is_soccer rs),
    Engine.probHome, Engine.adjusted]
  rw [renorm_total, div_one]

lemma soccer_away_win_prob (rs : Ratings) (home away : String) :
    ((Engine.soccer rs).predict_match home away).away_win_prob
      = (Engine.soccer rs).probAway home away := by
  simp only [Engine.predict_match, if_pos (soccer_is_soccer rs),
    Engine.probAway, Engine.adjusted]
  rw [renorm_total, div_one]

lemma soccer_draw_prob (rs : Ratings) (home away : String) :
    ((Engine.soccer rs).predict_match home away).draw_prob
      = 1 - ((Engine.soccer rs).probHome home away
              + (Engine.soccer rs).probAway home away) := by
  simp only [Engine.predict_match, if_pos (soccer_is_soccer rs),
    Engine.probHome, Engine.probAway, Engine.adjusted]
  rw [renorm_total, div_one]

lemma basketball_home_win_prob (rs : Ratings) (home away : String) :
    ((Engine.basketball rs).predict_match home away).home_win_prob
      = (Engine.basketball rs).probHome home away := by
  simp only [Engine.predict_match, if_neg (basketball_not_soccer rs),
    Engine.probHome, Engine.adjusted]

lemma basketball_away_win_prob (rs : Ratings) (home away : String) :
    ((Engine.basketball rs).predict_match home away).away_win_prob
      = (Engine.basketball rs).probAway home away := by
  simp only [Engine.predict_match, if_neg (basketball_not_soccer rs),
    Engine.probAway, Engine.adjusted]

lemma basketball_draw_prob (rs : Ratings) (home away : String) :
    ((Engine.basketball rs).predict_match home away).draw_prob = 0 := by
  simp only [Engine.predict_match, if_neg (basketball_not_soccer rs)]

/-! ### The two perspective calls are exactly complementary -/

lemma probHome_eq (e : Engine) (home away : String) (hh : home ≠ "") :
    e.probHome home away
      = 1 / (1 + (10 : ℝ) ^
          ((e.adjusted away - (e.adjusted home + (e.home_advantage : ℝ))) / 400)) := by
  rw [Engine.probHome, expected_score_self e _ _ hh]

lemma probAway_eq (e : Engine) (home away : String)
    (hh : home ≠ "") (ha : away ≠ "") (hne : home ≠ away) :
    e.probAway home away
      = 1 / (1 + (10 : ℝ) ^
          (((e.adjusted home + (e.home_advantage : ℝ)) - e.adjusted away) / 400)) := by
  rw [Engine.probAway, expected_score_other e _ _ ha hh hne]

/-- With non-empty distinct team names the home advantage lands on the
home rating in BOTH perspective calls, so the two probabilities are
exactly complementary. -/
lemma probHome_add_probAway (e : Engine) (home away : String)
    (hh : home ≠ "") (ha : away ≠ "") (hne : home ≠ away) :
    e.probHome home away + e.probAway home away = 1 := by
  rw [probHome_eq e home away hh, probAway_eq e home away hh ha hne]
  have h := logistic_complement
    ((e.adjusted away - (e.adjusted home + (e.home_advantage : ℝ))) / 400)
  rw [show -((e.adjusted away - (e.adjusted home + (e.home_advantage : ℝ))) / 400)
        = ((e.adjusted home + (e.home_advantage : ℝ)) - e.adjusted away) / 400
      by ring] at h
  exact h

/-- The renormalized soccer triple always sums to `1`: the unnormalized
total `p + q + (1 - (p + q))` is identically `1`, so the division is a
no-op. -/
lemma soccer_sum_lemma (rs : Ratings) (home away : String) :
    ((Engine.soccer rs).predict_match home away).home_win_prob
      + ((Engine.soccer rs).predict_match home away).draw_prob
      + ((Engine.soccer rs).predict_match home away).away_win_prob = 1 := by
  rw [soccer_home_win_prob, soccer_draw_prob, soccer_away_win_prob]
  ring

/-! ### Monotonicity and defaults infrastructure -/

lemma expected_score_congr {e1 e2 : Engine}
    (h : e1.home_advantage = e2.home_advantage) (a b : ℝ)
    (ht ta : Option String) :
    e1.expected_score a b ht ta = e2.expected_score a b ht ta := by
  rw [Engine.expected_score, Engine.expected_score, h]

/-- `expected_score` is strictly increasing in `rating_a`, whichever
branch the home-team arguments select. -/
lemma expected_score_mono (e : Engine) {a1 a2 : ℝ} (b : ℝ)
    (ht ta : Option String) (h : a1 < a2) :
    e.expected_score a1 b ht ta < e.expected_score a2 b ht ta := by
  rw [Engine.expected_score, Engine.expected_score]
  split_ifs
  · exact logistic_anti (by linarith)
  · exact logistic_anti (by linarith)
  · exact logistic_anti (by linarith)

lemma probHome_mono {e1 e2 : Engine} (home away : String)
    (hha : e1.home_advantage = e2.home_advantage)
    (hlt : e1.adjusted home < e2.adjusted home)
    (heq : e1.adjusted away = e2.adjusted away) :
    e1.probHome home away < e2.probHome home away := by
  rw [Engine.probHome, Engine.probHome, heq, expected_score_congr hha]
  exact expected_score_mono e2 _ _ _ hlt

lemma lookupTeam_cons_self (team : String) (rec : TeamRecord) (rest : Ratings) :
    lookupTeam ((team, rec) :: rest) team = some rec := by
  simp [lookupTeam, List.lookup]

lemma lookupTeam_cons_ne {team k : String} (h : team ≠ k)
    (rec : TeamRecord) (rest : Ratings) :
    lookupTeam ((k, rec) :: rest) team = lookupTeam rest team := by
  have hb : (team == k) = false := beq_eq_false_iff_ne.mpr h
  simp [lookupTeam, List.lookup, hb]

lemma get_rating_of_lookup (e : Engine) (team : String) (r : ℚ)
    (fo : Option (List ℚ))
    (h : lookupTeam e.ratings team = some ⟨some r, fo⟩) :
    e.get_rating team = r := by
  rw [Engine.get_rating, h]
  rfl

lemma form_history_of_lookup (e : Engine) (team : String) (ro : Option ℚ)
    (fo : Option (List ℚ))
    (h : lookupTeam e.ratings team = some ⟨ro, fo⟩) :
    e.form_history team = fo.getD defaultForm := by
  rw [Engine.form_history, h]
  rfl

lemma adjusted_of_lookup (e : Engine) (team : String) (r : ℚ)
    (fo : Option (List ℚ))
    (h : lookupTeam e.ratings team = some ⟨some r, fo⟩) :
    e.adjusted team
      = (r : ℝ) + (((weightedForm (fo.getD defaultForm)) : ℝ) - 1.5) * 20 := by
  rw [Engine.adjusted, get_rating_of_lookup e team r fo h, Engine.get_form,
    form_history_of_lookup e team (some r) fo h]

lemma get_rating_default (e : Engine) (team : String)
    (h : lookupTeam e.ratings team = none) :
    e.get_rating team = e.default_rating := by
  rw [Engine.get_rating, h]
  rfl

lemma form_history_default (e : Engine) (team : String)
    (h : lookupTeam e.ratings team = none) :
    e.form_history team = defaultForm := by
  rw [Engine.form_history, h]
  rfl

/-- The neutral default history weights to exactly `1.5`. -/
lemma weightedForm_default : weightedForm defaultForm = 3 / 2 := by
  norm_num [weightedForm, defaultForm, formWeights]

lemma adjusted_default (e : Engine) (team : String)
    (h : lookupTeam e.ratings team = none) :
    e.adjusted team = (e.default_rating : ℝ) := by
  rw [Engine.adjusted, get_rating_default e team h, Engine.get_form,
    form_history_default e team h, weightedForm_default]
  push_cast
  ring

/-! ### The equal-ratings neutral-form scenario (empty table, default
inputs) for both sports -/

lemma soccer_scenario_probHome :
    (Engine.soccer []).probHome "Home" "Away"
      = 1 / (1 + (10 : ℝ) ^ (-(100 / 400) : ℝ)) := by
  rw [probHome_eq _ _ _ (by decide),
    adjusted_default (Engine.soccer []) "Home" rfl,
    adjusted_default (Engine.soccer []) "Away" rfl]
  norm_num [Engine.soccer]

lemma soccer_scenario_probAway :
    (Engine.soccer []).probAway "Home" "Away"
      = 1 / (1 + (10 : ℝ) ^ ((100 / 400) : ℝ)) := by
  rw [probAway_eq _ _ _ (by decide) (by decide) (by decide),
    adjusted_default (Engine.soccer []) "Home" rfl,
    adjusted_default (Engine.soccer []) "Away" rfl]
  norm_num [Engine.soccer]

lemma soccer_scenario_draw_zero :
    ((Engine.soccer []).predict_match "Home" "Away").draw_prob = 0 := by
  rw [soccer_draw_prob,
    probHome_add_probAway (Engine.soccer []) "Home" "Away"
      (by decide) (by decide) (by decide)]
  ring

lemma basketball_scenario_probHome :
    (Engine.basketball []).probHome "Home" "Away"
      = 1 / (1 + (10 : ℝ) ^ (-(70 / 400) : ℝ)) := by
  rw [probHome_eq _ _ _ (by decide),
    adjusted_default (Engine.basketball []) "Home" rfl,
    adjusted_default (Engine.basketball []) "Away" rfl]
  norm_num [Engine.basketball]

/-! ## Claim theorems -/

/-- C1 (counterexample): in the soccer scenario with equal default
ratings (1500 vs 1500), neutral form and a designated home team, the
claimed conjunction fails, because `draw_prob` is exactly `0` rather
than positive: the home advantage lands on the home rating in both
perspective calls, so the two win probabilities already sum to `1`. -/
theorem claim1_counterexample :
    ¬ (((Engine.soccer []).predict_match "Home" "Away").home_win_prob
          > ((Engine.soccer []).predict_match "Home" "Away").away_win_prob
        ∧ ((Engine.soccer []).predict_match "Home" "Away").away_win_prob > 0
        ∧ ((Engine.soccer []).predict_match "Home" "Away").draw_prob > 0
        ∧ ((Engine.soccer []).predict_match "Home" "Away").home_win_prob
            + ((Engine.soccer []).predict_match "Home" "Away").draw_prob
            + ((Engine.soccer []).predict_match "Home" "Away").away_win_prob
            = 1) := by
  rintro ⟨-, -, hdraw, -⟩
  have h0 := soccer_scenario_draw_zero
  linarith

/-- C1 (amended): soccer, equal ratings (1500 vs 1500), neutral form,
home team designated: `home_win_prob > away_win_prob > 0`, the three
probabilities sum to `1`, but `draw_prob = 0` (not `> 0`). -/
theorem claim1_amended_scenario :
    ((Engine.soccer []).predict_match "Home" "Away").home_win_prob
        > ((Engine.soccer []).predict_match "Home" "Away").away_win_prob
    ∧ ((Engine.soccer []).predict_match "Home" "Away").away_win_prob > 0
    ∧ ((Engine.soccer []).predict_match "Home" "Away").draw_prob = 0
    ∧ ((Engine.soccer []).predict_match "Home" "Away").home_win_prob
        + ((Engine.soccer []).predict_match "Home" "Away").draw_prob
        + ((Engine.soccer []).predict_match "Home" "Away").away_win_prob
        = 1 := by
  have hp : ((Engine.soccer []).predict_match "Home" "Away").home_win_prob
      = 1 / (1 + (10 : ℝ) ^ (-(100 / 400) : ℝ)) := by
    rw [soccer_home_win_prob, soccer_scenario_probHome]
  have hq : ((Engine.soccer []).predict_match "Home" "Away").away_win_prob
      = 1 / (1 + (10 : ℝ) ^ ((100 / 400) : ℝ)) := by
    rw [soccer_away_win_prob, soccer_scenario_probAway]
  have hgt : (1 : ℝ) / 2 < 1 / (1 + (10 : ℝ) ^ (-(100 / 400) : ℝ)) :=
    logistic_gt_half (by norm_num)
  have hcomp : 1 / (1 + (10 : ℝ) ^ (-(100 / 400) : ℝ))
      + 1 / (1 + (10 : ℝ) ^ ((100 / 400) : ℝ)) = 1 := by
    have h := logistic_complement (-(100 / 400) : ℝ)
    rwa [neg_neg] at h
  have hqpos : 0 < 1 / (1 + (10 : ℝ) ^ ((100 / 400) : ℝ)) := logistic_pos _
  refine ⟨?_, ?_, soccer_scenario_draw_zero, soccer_sum_lemma [] "Home" "Away"⟩
  · rw [hp, hq]
    linarith
  · rw [hq]
    exact hqpos

/-- C2: for every soccer prediction with non-empty, distinct home and
away team names, both `expected_score` calls grant the home-advantage
bonus to the home rating, so the unnormalized `prob_home_win +
prob_away_win` is exactly `1`, the draw probability is exactly `0`, and
the returned probabilities satisfy `draw_prob = 0` and
`home_win_prob + away_win_prob = 1`. -/
theorem claim2_soccer_draw_always_zero (rs : Ratings) (home away : String)
    (hh : home ≠ "") (ha : away ≠ "") (hne : home ≠ away) :
    ((Engine.soccer rs).predict_match home away).draw_prob = 0
    ∧ ((Engine.soccer rs).predict_match home away).home_win_prob
        + ((Engine.soccer rs).predict_match home away).away_win_prob = 1 := by
  have hsum := probHome_add_probAway (Engine.soccer rs) home away hh ha hne
  refine ⟨?_, ?_⟩
  · rw [soccer_draw_prob, hsum]
    ring
  · rw [soccer_home_win_prob, soccer_away_win_prob]
    exact hsum

/-- Witness for C2 at a concrete table and team names. -/
theorem claim2_witness :
    ((Engine.soccer []).predict_match "Alpha" "Beta").draw_prob = 0
    ∧ ((Engine.soccer []).predict_match "Alpha" "Beta").home_win_prob
        + ((Engine.soccer []).predict_match "Alpha" "Beta").away_win_prob
        = 1 :=
  claim2_soccer_draw_always_zero [] "Alpha" "Beta"
    (by decide) (by decide) (by decide)

/-- C4: for every table and any team names (hence any finite rating and
form inputs, including extreme rating differences), the three soccer
probabilities sum to exactly `1` after renormalization. -/
theorem claim4_soccer_sum_one (rs : Ratings) (home away : String) :
    ((Engine.soccer rs).predict_match home away).home_win_prob
      + ((Engine.soccer rs).predict_match home away).draw_prob
      + ((Engine.soccer rs).predict_match home away).away_win_prob = 1 :=
  soccer_sum_lemma rs home away

/-- C8: basketball, equal ratings, neutral form: `draw_prob = 0`,
`home_win_prob + away_win_prob = 1`, and `home_win_prob > 1 / 2` due to
the home advantage. -/
theorem claim8_basketball_scenario :
    ((Engine.basketball []).predict_match "Home" "Away").draw_prob = 0
    ∧ ((Engine.basketball []).predict_match "Home" "Away").home_win_prob
        + ((Engine.basketball []).predict_match "Home" "Away").away_win_prob
        = 1
    ∧ ((Engine.basketball []).predict_match "Home" "Away").home_win_prob
        > 1 / 2 := by
  refine ⟨basketball_draw_prob [] "Home" "Away", ?_, ?_⟩
  · rw [basketball_home_win_prob, basketball_away_win_prob]
    exact probHome_add_probAway (Engine.basketball []) "Home" "Away"
      (by decide) (by decide) (by decide)
  · rw [basketball_home_win_prob, basketball_scenario_probHome]
    exact logistic_gt_half (by norm_num)

/-- C3 (counterexample): the claim predicts `weightedForm [v] = v`; at
the single-entry history `[3]` the code divides `3 * 1.5` by the sum of
ALL five weights (`5.5`), producing `9 / 11`, not `3`. -/
theorem claim3_counterexample :
    weightedForm [3] = 9 / 11 ∧ weightedForm [3] ≠ 3 := by
  constructor
  · norm_num [weightedForm, formWeights]
  · norm_num [weightedForm, formWeights]

/-- C3 (amended): the numerator zips the available entries with the
weights pairwise, but the divisor is always the full-weight sum
`5.5 = 11 / 2`; in particular a single-entry history `[v]` yields
`v * 1.5 / 5.5 = 3 * v / 11`, not `v`. -/
theorem claim3_amended :
    (∀ form : List ℚ, weightedForm form
        = (List.zipWith (· * ·) form formWeights).sum / (11 / 2))
    ∧ (∀ v : ℚ, weightedForm [v] = 3 * v / 11) := by
  constructor
  · intro form
    rw [weightedForm]
    norm_num [formWeights]
  · intro v
    rw [weightedForm]
    simp [formWeights]
    ring

/-- C5 (the code at the failing input): constructing the engine with the
unrecognized sport `"tennis"` does not fail fast; it produces an engine
whose sport-parameter constants were never bound, observable as
`consts = none`, while the recognized sports do bind them. -/
theorem claim5_unknown_sport_silent :
    (EloEngine.init "tennis" []).sport = "tennis"
    ∧ (EloEngine.init "tennis" []).consts = none
    ∧ (EloEngine.init "soccer" []).consts = some ⟨32, 100, 1500⟩
    ∧ (EloEngine.init "basketball" []).consts = some ⟨20, 70, 1500⟩ := by
  refine ⟨rfl, ?_, ?_, ?_⟩ <;> decide

/-- C6: holding the away team's rating and both teams' form fixed,
strictly increasing the home team's rating strictly increases the
returned `home_win_prob`, for soccer and for basketball. -/
theorem claim6_home_rating_mono (home away : String) (r1 r2 ra : ℚ)
    (fh fa : Option (List ℚ)) (hne : home ≠ away) (hr : r1 < r2) :
    ((Engine.soccer [(home, ⟨some r1, fh⟩), (away, ⟨some ra, fa⟩)]).predict_match
        home away).home_win_prob
      < ((Engine.soccer [(home, ⟨some r2, fh⟩), (away, ⟨some ra, fa⟩)]).predict_match
          home away).home_win_prob
    ∧ ((Engine.basketball [(home, ⟨some r1, fh⟩), (away, ⟨some ra, fa⟩)]).predict_match
        home away).home_win_prob
      < ((Engine.basketball [(home, ⟨some r2, fh⟩), (away, ⟨some ra, fa⟩)]).predict_match
          home away).home_win_prob := by
  have hcast : (r1 : ℝ) < r2 := by exact_mod_cast hr
  have hlaway : ∀ rec1 : TeamRecord,
      lookupTeam [(home, rec1), (away, (⟨some ra, fa⟩ : TeamRecord))] away
        = some ⟨some ra, fa⟩ := by
    intro rec1
    rw [lookupTeam_cons_ne (Ne.symm hne), lookupTeam_cons_self]
  constructor
  · rw [soccer_home_win_prob, soccer_home_win_prob]
    refine probHome_mono home away ?_ ?_ ?_
    · rfl
    · rw [adjusted_of_lookup _ home r1 fh (lookupTeam_cons_self home _ _),
        adjusted_of_lookup _ home r2 fh (lookupTeam_cons_self home _ _)]
      linarith
    · rw [adjusted_of_lookup _ away ra fa (hlaway ⟨some r1, fh⟩),
        adjusted_of_lookup _ away ra fa (hlaway ⟨some r2, fh⟩)]
  · rw [basketball_home_win_prob, basketball_home_win_prob]
    refine probHome_mono home away ?_ ?_ ?_
    · rfl
    · rw [adjusted_of_lookup _ home r1 fh (lookupTeam_cons_self home _ _),
        adjusted_of_lookup _ home r2 fh (lookupTeam_cons_self home _ _)]
      linarith
    · rw [adjusted_of_lookup _ away ra fa (hlaway ⟨some r1, fh⟩),
        adjusted_of_lookup _ away ra fa (hlaway ⟨some r2, fh⟩)]

/-- Witness for C6 at concrete names, ratings and forms. -/
theorem claim6_witness :
    ((Engine.soccer [("H", ⟨some 1500, none⟩), ("A", ⟨some 1500, none⟩)]).predict_match
        "H" "A").home_win_prob
      < ((Engine.soccer [("H", ⟨some 1600, none⟩), ("A", ⟨some 1500, none⟩)]).predict_match
          "H" "A").home_win_prob
    ∧ ((Engine.basketball [("H", ⟨some 1500, none⟩), ("A", ⟨some 1500, none⟩)]).predict_match
        "H" "A").home_win_prob
      < ((Engine.basketball [("H", ⟨some 1600, none⟩), ("A", ⟨some 1500, none⟩)]).predict_match
          "H" "A").home_win_prob :=
  claim6_home_rating_mono "H" "A" 1500 1600 1500 none none
    (by decide) (by norm_num)

/-- C7: with a positive home-advantage constant, designating `team_a` as
the home team yields a strictly greater expected score for it than the
neutral evaluation with no home team specified, for any fixed ratings. -/
theorem claim7_home_designation_gain (e : Engine) (a b : ℝ) (t : String)
    (hpos : 0 < e.home_advantage) (ht : t ≠ "") :
    e.expected_score a b none none < e.expected_score a b (some t) (some t) := by
  rw [expected_score_neutral, expected_score_self e a b ht]
  apply logistic_anti
  have hc : (0 : ℝ) < (e.home_advantage : ℝ) := by exact_mod_cast hpos
  linarith

/-- Witness for C7 on the soccer engine at equal ratings. -/
theorem claim7_witness :
    (Engine.soccer []).expected_score 1500 1500 none none
      < (Engine.soccer []).expected_score 1500 1500 (some "Home") (some "Home") :=
  claim7_home_designation_gain (Engine.soccer []) 1500 1500 "Home"
    (by norm_num [Engine.soccer]) (by decide)

/-- C9: a team absent from the table resolves to the default rating
`1500` and the neutral default form history `[1.5, 1.5, 1.5, 1.5, 1.5]`,
for both sports; the lookups are total functions and never fail. -/
theorem claim9_unknown_team_defaults (rs : Ratings) (team : String)
    (h : lookupTeam rs team = none) :
    (Engine.soccer rs).get_rating team = 1500
    ∧ (Engine.soccer rs).form_history team = [3/2, 3/2, 3/2, 3/2, 3/2]
    ∧ (Engine.basketball rs).get_rating team = 1500
    ∧ (Engine.basketball rs).form_history team = [3/2, 3/2, 3/2, 3/2, 3/2] := by
  refine ⟨?_, ?_, ?_, ?_⟩
  · rw [get_rating_default (Engine.soccer rs) team h]
    rfl
  · rw [form_history_default (Engine.soccer rs) team h]
    rfl
  · rw [get_rating_default (Engine.basketball rs) team h]
    rfl
  · rw [form_history_default (Engine.basketball rs) team h]
    rfl

/-- Witness for C9 at the empty table. -/
theorem claim9_witness :
    (Engine.soccer []).get_rating "Unknown" = 1500
    ∧ (Engine.soccer []).form_history "Unknown" = [3/2, 3/2, 3/2, 3/2, 3/2]
    ∧ (Engine.basketball []).get_rating "Unknown" = 1500
    ∧ (Engine.basketball []).form_history "Unknown" = [3/2, 3/2, 3/2, 3/2, 3/2] :=
  claim9_unknown_team_defaults [] "Unknown" rfl

/-- C10: every failed load attempt yields the empty rating table rather
than an error, and the engines stay usable over it with all-default
ratings. -/
theorem claim10_load_failure_degrades (msg : String) (team : String) :
    load_ratings (Except.error msg) = []
    ∧ (Engine.soccer (load_ratings (Except.error msg))).get_rating team = 1500
    ∧ (Engine.basketball (load_ratings (Except.error msg))).get_rating team
        = 1500 := by
  refine ⟨rfl, ?_, ?_⟩
  · rw [get_rating_default (Engine.soccer (load_ratings (Except.error msg)))
      team rfl]
    rfl
  · rw [get_rating_default (Engine.basketball (load_ratings (Except.error msg)))
      team rfl]
    rfl

end SmartBet
